import Mathlib

/-!
Shallow embedding of src/webtorrent-runner.js: a WebTorrent-based video
streamer consisting of an HTTP byte-range server over a torrent file, a
stream-error logger, a video-member selector, a scratch-directory cleanup
step, and a shutdown sequence driven by terminal triggers.  Each definition
below is translated from the source file; theorems settle the frozen claims.
-/

namespace WBTR

/-! ### JavaScript number fragment

The range-parsing code uses `parseInt`, which can return NaN, and NaN
propagates through arithmetic and prints as "NaN" in template literals.
We model the fragment of JS numbers that the handler can produce: an
integer or NaN. -/

inductive JsNum where
  | num (i : Int)
  | nan
deriving DecidableEq, Repr

/-- Subtraction with NaN propagation, as in JS `end - start`. -/
def JsNum.sub : JsNum → JsNum → JsNum
  | JsNum.num a, JsNum.num b => JsNum.num (a - b)
  | _, _ => JsNum.nan

/-- Adding one with NaN propagation, as in JS `... + 1`. -/
def JsNum.addOne : JsNum → JsNum
  | JsNum.num a => JsNum.num (a + 1)
  | JsNum.nan => JsNum.nan

/-- Rendering inside a template literal: an integer prints in decimal,
NaN prints as "NaN". -/
def JsNum.render : JsNum → String
  | JsNum.num i => toString i
  | JsNum.nan => "NaN"

/-! ### String helpers mirroring the JS string operations used at
src/webtorrent-runner.js lines 86-88.  All are structural recursions over
`List Char` so that concrete instances evaluate in the kernel. -/

/-- When `pat` is a prefix of `s`, return the remainder of `s`. -/
def dropPrefMatch : List Char → List Char → Option (List Char)
  | [], s => some s
  | _ :: _, [] => none
  | p :: ps, x :: xs => if p = x then dropPrefMatch ps xs else none

/-- Remove the first occurrence of `pat` from `s`, as JS
`s.replace(/pat/, '')` does for a literal pattern; `s` is unchanged when
`pat` does not occur. -/
def removeFirst (pat : List Char) : List Char → List Char
  | [] => []
  | x :: xs =>
    match dropPrefMatch pat (x :: xs) with
    | some rest => rest
    | none => x :: removeFirst pat xs

/-- Split on a single character, as JS `s.split('-')`: always returns at
least one (possibly empty) piece. -/
def splitOnChar (c : Char) : List Char → List (List Char)
  | [] => [[]]
  | x :: xs =>
    let r := splitOnChar c xs
    if x = c then [] :: r
    else
      match r with
      | [] => [[x]]
      | y :: ys => (x :: y) :: ys

/-- True when `pat` occurs as a contiguous substring, as JS
`s.includes(pat)`. -/
def containsSub (pat : List Char) : List Char → Bool
  | [] => (dropPrefMatch pat []).isSome
  | x :: xs => (dropPrefMatch pat (x :: xs)).isSome || containsSub pat xs

/-- Digit run to a natural number, most significant first. -/
def digitsToNat (ds : List Char) : Nat :=
  ds.foldl (fun a c => a * 10 + (c.toNat - 48)) 0

/-- Parse the longest leading digit run; NaN when there is none. -/
def parseDigitRun (cs : List Char) : JsNum :=
  let ds := cs.takeWhile Char.isDigit
  if ds.isEmpty then JsNum.nan else JsNum.num (digitsToNat ds)

/-- JS `parseInt(s, 10)`: skip leading whitespace, allow one sign, then
read a leading digit run; NaN when no digit follows. -/
def jsParseInt (cs : List Char) : JsNum :=
  match cs.dropWhile Char.isWhitespace with
  | '-' :: rest =>
    match parseDigitRun rest with
    | JsNum.num i => JsNum.num (-i)
    | JsNum.nan => JsNum.nan
  | '+' :: rest => parseDigitRun rest
  | other => parseDigitRun other

/-! ### Range header parsing (src/webtorrent-runner.js lines 86-88)

  const [startStr, endStr] = range.replace(/bytes=/, '').split('-');
  const start = parseInt(startStr, 10);
  const end = endStr ? parseInt(endStr, 10) : size - 1;
-/

/-- Parse a Range header against the file size, returning the pair
(start, end) exactly as lines 86-88 compute it: `end` falls back to
`size - 1` when the part after the dash is absent or empty (JS falsy). -/
def parseRangeHeader (range : String) (size : Int) : JsNum × JsNum :=
  let stripped := removeFirst ("bytes=".data) range.data
  let parts := splitOnChar '-' stripped
  let startStr := parts.headD []
  let s := jsParseInt startStr
  let e :=
    match parts.get? 1 with
    | none => JsNum.num (size - 1)
    | some es => if es.isEmpty then JsNum.num (size - 1) else jsParseInt es
  (s, e)

/-! ### HTTP request handler (src/webtorrent-runner.js lines 70-99) -/

/-- The selected torrent file as the handler sees it: a name and a byte
length (the handler reads only the length; the name matters for file
selection and is ignored when choosing the Content-Type). -/
structure Video where
  name : String
  length : Int
deriving DecidableEq, Repr

/-- An incoming HTTP request: method and optional Range header. -/
structure Request where
  method : String
  range : Option String
deriving DecidableEq, Repr

/-- The observable response: status code, whether Accept-Ranges was set,
and the Content-Type, Content-Range and Content-Length headers. -/
structure Response where
  status : Nat
  acceptRanges : Bool
  contentType : Option String
  contentRange : Option String
  contentLength : Option JsNum
deriving DecidableEq, Repr

/-- JS truthiness test on the range header: absent or empty is falsy
(line 78 `if (!range)`). -/
def rangeFalsy : Option String → Bool
  | none => true
  | some r => r.data.isEmpty

/-- The request handler of lines 70-99: non-GET gets a bare 405; a GET
without a (truthy) Range header gets 200 with the full length; otherwise
the header is parsed by `parseRangeHeader` and a 206 is emitted with
Content-Range `bytes start-end/size` and Content-Length `end - start + 1`,
with no validation of the parsed bounds. -/
def handler (video : Video) (req : Request) : Response :=
  if req.method ≠ "GET" then
    { status := 405, acceptRanges := false, contentType := none,
      contentRange := none, contentLength := none }
  else
    let size := video.length
    if rangeFalsy req.range then
      { status := 200, acceptRanges := true, contentType := some "video/mp4",
        contentRange := none, contentLength := some (JsNum.num size) }
    else
      let h := req.range.getD ""
      let p := parseRangeHeader h size
      let chunksize := (JsNum.sub p.2 p.1).addOne
      { status := 206, acceptRanges := true, contentType := some "video/mp4",
        contentRange := some ("bytes " ++ p.1.render ++ "-" ++ p.2.render
          ++ "/" ++ toString size),
        contentLength := some chunksize }

example : parseRangeHeader "bytes=1000-1999" 5000000
    = (JsNum.num 1000, JsNum.num 1999) := by decide

example : parseRangeHeader "bytes=500-" 100
    = (JsNum.num 500, JsNum.num 99) := by decide

example : parseRangeHeader "bytes=abc" 100
    = (JsNum.nan, JsNum.num 99) := by decide

/-! ### Video member selection (src/webtorrent-runner.js line 61)

  const video = t.files.find(f => /\.(mp4|mkv|avi|webm|m4v)$/i.test(f.name));
-/

/-- The fixed media extension allow-list of the selection regex. -/
def videoExts : List String := [".mp4", ".mkv", ".avi", ".webm", ".m4v"]

/-- The regex test of line 61: the name, case-folded, ends with a dot and
one of the allow-listed extensions. -/
def hasVideoExt (name : String) : Bool :=
  let l := name.data.map Char.toLower
  videoExts.any (fun e => e.data.isSuffixOf l)

/-- Result of the `client.add` callback (lines 57-120): either the HTTP
server is created for the selected video, or the run dies with an exit
status.  When no member matches (lines 62-65), `shutdown(1)` is invoked
and — because the branch does not return — line 67 then dereferences the
undefined `video`, raising an uncaught TypeError that terminates the
process with status 1 before any server is created; on either path the
observable outcome is exit status 1 and no server. -/
inductive JoinOutcome where
  | serverStarted (videoName : String)
  | fatalExit (code : Nat)
deriving DecidableEq, Repr

/-- The member-selection part of the `client.add` callback. -/
def addTorrentCallback (files : List String) : JoinOutcome :=
  match files.find? hasVideoExt with
  | some v => JoinOutcome.serverStarted v
  | none => JoinOutcome.fatalExit 1

example : addTorrentCallback ["readme.txt", "movie.mkv"]
    = JoinOutcome.serverStarted "movie.mkv" := by decide

example : addTorrentCallback ["readme.txt"]
    = JoinOutcome.fatalExit 1 := by decide

/-! ### Stream-error logging (src/webtorrent-runner.js lines 124-129)

  function logStreamError(e) {
    if (!streamErrorLogged && e.message.includes('prematurely')) {
      console.error('Stream hiccup (normal for seeking):', e.message);
      streamErrorLogged = true;
    }
  }
-/

/-- One call to `logStreamError`: given the `streamErrorLogged` flag and
the error message, return the updated flag and the log line emitted, if
any.  Only messages containing "prematurely" are ever logged, and only
while the flag is still false. -/
def logStreamError (logged : Bool) (msg : String) : Bool × Option String :=
  if !logged && containsSub ("prematurely".data) msg.data then
    (true, some ("Stream hiccup (normal for seeking): " ++ msg))
  else
    (logged, none)

/-- Fold `logStreamError` over a sequence of stream errors, starting from
the initial `streamErrorLogged = false` (line 26), accumulating the log
lines emitted. -/
def streamStep (acc : Bool × List String) (msg : String) : Bool × List String :=
  let r := logStreamError acc.1 msg
  (r.1, acc.2 ++ r.2.toList)

/-- The log lines produced by a whole sequence of stream errors. -/
def runStreamErrors (msgs : List String) : List String :=
  (msgs.foldl streamStep (false, [])).2

example : runStreamErrors ["Stream closed prematurely", "closed prematurely"]
    = ["Stream hiccup (normal for seeking): Stream closed prematurely"] := by
  decide

example : runStreamErrors ["read ECONNRESET"] = [] := by decide

/-! ### Scratch-directory cleanup (src/webtorrent-runner.js lines 206-220)

  const entries = await fs.readdir(dlDir);
  if (entries.length > 0) {
    await Promise.all(entries.map(e => fs.rm(path.join(dlDir, e),
      { recursive: true, force: true })));
  }
  catch: an ENOENT from readdir is swallowed; other errors are logged.
-/

/-- The scratch directory on disk: `none` means the directory does not
exist; `some entries` its current entries. -/
def ScratchDir := Option (List String)

/-- The cleanup step of the shutdown sequence: each entry of the directory
is removed (the directory itself is never removed), and a missing
directory makes `readdir` throw ENOENT, which the catch swallows without
logging.  Returns the directory state after cleanup and whether a cleanup
error was logged. -/
def cleanupScratch : Option (List String) → Option (List String) × Bool
  | none => (none, false)
  | some _ => (some [], false)

/-! ### Shutdown lifecycle (src/webtorrent-runner.js lines 51-54, 162-165,
187-223, 228-231)

The four terminal triggers each call `shutdown` with a fixed code:
client error → shutdown(1); no video member → shutdown(1); player exit
(any code) → shutdown(0); SIGINT → shutdown(0).  `shutdown` is an async
function with no idempotency guard; its body is cut by its awaits into
four segments that the single-threaded event loop interleaves with other
pending callbacks:

  segment 1 (synchronous on call): log, clear the two intervals, call
    server.close and await its completion;
  segment 2 (close completed): log, call client.destroy, await a 500 ms
    grace timer;
  segment 3 (grace elapsed): readdir + remove every entry of the scratch
    directory, awaiting the file operations;
  segment 4 (cleanup done): process.exit(code).

A `Job` is one of these event-loop turns; an `Effect` is an observable
teardown side effect; `runJobs` executes a schedule of turns, ignoring
every turn once the process has exited. -/

/-- The four terminal trigger sources. -/
inductive Trigger where
  | clientError
  | noVideo
  | playerExit (code : Int)
  | sigint
deriving DecidableEq, Repr

/-- The exit code each trigger passes to `shutdown`: lines 53, 64, 164
and 230.  The player exit handler always passes 0, discarding the actual
player exit code. -/
def triggerCode : Trigger → Nat
  | Trigger.clientError => 1
  | Trigger.noVideo => 1
  | Trigger.playerExit _ => 0
  | Trigger.sigint => 0

/-- One event-loop turn: a trigger firing (running shutdown segment 1
synchronously), or the resumption of a suspended shutdown run at one of
its awaits, carrying that run's exit code. -/
inductive Job where
  | fire (t : Trigger)
  | resumeAfterClose (code : Nat)
  | resumeAfterGrace (code : Nat)
  | resumeAfterCleanup (code : Nat)
deriving DecidableEq, Repr

/-- Observable teardown side effects of a shutdown run. -/
inductive Effect where
  | enterShutdown (code : Nat)
  | timersCleared
  | serverCloseRequested
  | clientDestroyRequested
  | scratchCleaned
  | exited (code : Nat)
deriving DecidableEq, Repr

/-- Process state: the exit status once `process.exit` has run, and the
trace of teardown effects so far. -/
structure ProcState where
  exitedWith : Option Nat
  trace : List Effect
deriving DecidableEq, Repr

/-- Execute one event-loop turn.  Nothing runs after `process.exit`.
A firing trigger always enters shutdown — the source has no guard flag —
so each of its segments appends its effects unconditionally. -/
def runJob (st : ProcState) (j : Job) : ProcState :=
  match st.exitedWith with
  | some _ => st
  | none =>
    match j with
    | Job.fire t =>
        { st with trace := st.trace ++
            [Effect.enterShutdown (triggerCode t), Effect.timersCleared,
             Effect.serverCloseRequested] }
    | Job.resumeAfterClose _ =>
        { st with trace := st.trace ++ [Effect.clientDestroyRequested] }
    | Job.resumeAfterGrace _ =>
        { st with trace := st.trace ++ [Effect.scratchCleaned] }
    | Job.resumeAfterCleanup c =>
        { exitedWith := some c, trace := st.trace ++ [Effect.exited c] }

/-- Run a whole schedule of event-loop turns from the running state. -/
def runJobs (js : List Job) : ProcState :=
  js.foldl runJob { exitedWith := none, trace := [] }

/-- Count of fire turns in a schedule. -/
def fireCount (js : List Job) : Nat :=
  js.countP (fun j => match j with | Job.fire _ => true | _ => false)

/-- Count of close-resumption turns. -/
def closeCount (js : List Job) : Nat :=
  js.countP (fun j => match j with | Job.resumeAfterClose _ => true | _ => false)

/-- Count of grace-resumption turns. -/
def graceCount (js : List Job) : Nat :=
  js.countP (fun j => match j with | Job.resumeAfterGrace _ => true | _ => false)

/-- Count of cleanup-resumption turns. -/
def cleanupCount (js : List Job) : Nat :=
  js.countP (fun j => match j with | Job.resumeAfterCleanup _ => true | _ => false)

/-- A schedule is causally valid when, in every prefix, a shutdown run is
resumed at an await only after the corresponding earlier stage happened:
no more close resumptions than fired triggers, no more grace resumptions
than close resumptions, no more cleanup resumptions than grace
resumptions. -/
def schedValid (js : List Job) : Bool :=
  (List.range (js.length + 1)).all (fun n =>
    closeCount (js.take n) ≤ fireCount (js.take n) &&
    graceCount (js.take n) ≤ closeCount (js.take n) &&
    cleanupCount (js.take n) ≤ graceCount (js.take n))

example :
    (runJobs [Job.fire (Trigger.playerExit 0), Job.resumeAfterClose 0,
      Job.resumeAfterGrace 0, Job.resumeAfterCleanup 0]).exitedWith
    = some 0 := by decide

example :
    (runJobs [Job.fire (Trigger.playerExit 0), Job.fire Trigger.sigint,
      Job.resumeAfterClose 0, Job.resumeAfterClose 0,
      Job.resumeAfterGrace 0, Job.resumeAfterGrace 0,
      Job.resumeAfterCleanup 0, Job.resumeAfterCleanup 0]).trace.count
        Effect.serverCloseRequested = 2 := by decide

/-- A legal interleaving in which the player-exit trigger fires, its
shutdown run suspends at the server-close await, and SIGINT then fires a
second shutdown run; both runs resume through every await, the first to
reach `process.exit` terminating the process. -/
def doubleFireSched : List Job :=
  [Job.fire (Trigger.playerExit 0), Job.fire Trigger.sigint,
   Job.resumeAfterClose 0, Job.resumeAfterClose 0,
   Job.resumeAfterGrace 0, Job.resumeAfterGrace 0,
   Job.resumeAfterCleanup 0, Job.resumeAfterCleanup 0]

/-- True exactly for the process-exit effect. -/
def isExitEff : Effect → Bool
  | Effect.exited _ => true
  | _ => false

/-! ### Shared helper lemmas -/

lemma rangeFalsy_some_false (h : String) (hne : h.data ≠ []) :
    rangeFalsy (some h) = false := by
  cases hd : h.data with
  | nil => exact absurd hd hne
  | cons a as => simp [rangeFalsy, hd]

lemma handler_parsed_range (v : Video) (h : String) (s e : Int)
    (hne : h.data ≠ [])
    (hp : parseRangeHeader h v.length = (JsNum.num s, JsNum.num e)) :
    handler v ⟨"GET", some h⟩ =
      { status := 206, acceptRanges := true, contentType := some "video/mp4",
        contentRange := some ("bytes " ++ toString s ++ "-" ++ toString e
          ++ "/" ++ toString v.length),
        contentLength := some (JsNum.num (e - s + 1)) } := by
  have hf := rangeFalsy_some_false h hne
  simp [handler, hf, hp, JsNum.render, JsNum.sub, JsNum.addOne]

lemma JsNum.sub_nan (x : JsNum) : JsNum.sub x JsNum.nan = JsNum.nan := by
  cases x <;> rfl

lemma runJob_exit_inv (st : ProcState) (j : Job)
    (h : st.trace.countP isExitEff = (if st.exitedWith.isSome then 1 else 0)) :
    (runJob st j).trace.countP isExitEff
      = (if (runJob st j).exitedWith.isSome then 1 else 0) := by
  rcases st with ⟨ex, tr⟩
  cases ex with
  | some c => simpa [runJob] using h
  | none =>
    simp only [Option.isSome_none, if_neg Bool.false_ne_true] at h
    cases j <;>
      simp [runJob, List.countP_append, List.countP_cons, isExitEff, h]

lemma foldl_runJob_exit_inv (js : List Job) :
    ∀ st : ProcState,
      st.trace.countP isExitEff = (if st.exitedWith.isSome then 1 else 0) →
      (js.foldl runJob st).trace.countP isExitEff
        = (if (js.foldl runJob st).exitedWith.isSome then 1 else 0) := by
  induction js with
  | nil => intro st h; simpa using h
  | cons j rest ih => intro st h; exact ih _ (runJob_exit_inv st j h)

lemma foldl_streamStep_length (msgs : List String) :
    ∀ (f : Bool) (out : List String),
      ((msgs.foldl streamStep (f, out)).2).length
        ≤ out.length + (if f then 0 else 1) := by
  induction msgs with
  | nil => intro f out; cases f <;> simp
  | cons m ms ih =>
    intro f out
    cases f with
    | true =>
      have hs : streamStep (true, out) m = (true, out) := by
        simp [streamStep, logStreamError]
      simpa [hs] using ih true out
    | false =>
      by_cases hc : containsSub ("prematurely".data) m.data
      · have hs : streamStep (false, out) m
            = (true, out ++ ["Stream hiccup (normal for seeking): " ++ m]) := by
          simp [streamStep, logStreamError, hc]
        have := ih true (out ++ ["Stream hiccup (normal for seeking): " ++ m])
        simp only [List.foldl_cons, hs]
        simp at this ⊢
        omega
      · have hs : streamStep (false, out) m = (false, out) := by
          simp [streamStep, logStreamError, hc]
        simpa [hs] using ih false out

lemma foldl_streamStep_no_match :
    ∀ (msgs : List String),
      (∀ m ∈ msgs, containsSub ("prematurely".data) m.data = false) →
      ∀ acc : Bool × List String, msgs.foldl streamStep acc = acc := by
  intro msgs
  induction msgs with
  | nil => intro _ acc; rfl
  | cons m ms ih =>
    intro hm acc
    have hmm : containsSub ("prematurely".data) m.data = false :=
      hm m (List.mem_cons_self m ms)
    have hs : streamStep acc m = acc := by
      simp [streamStep, logStreamError, hmm]
    simp only [List.foldl_cons, hs]
    exact ih (fun x hx => hm x (List.mem_cons_of_mem m hx)) acc

/-! ### Claim theorems -/

/-- Claim C1, counterexample: the shutdown sequence is not guarded, so in
the legal interleaving `doubleFireSched` — player exit and SIGINT firing
while the first shutdown run is suspended at an await — SHUTTING_DOWN is
entered twice and the teardown side effects (timer cancellation, socket
close, swarm destroy, scratch deletion) each occur twice, refuting the
claim that they occur exactly once and that later triggers are no-ops. -/
theorem double_trigger_runs_teardown_twice :
    schedValid doubleFireSched = true ∧
    fireCount doubleFireSched = 2 ∧
    (runJobs doubleFireSched).trace.count (Effect.enterShutdown 0) = 2 ∧
    (runJobs doubleFireSched).trace.count Effect.timersCleared = 2 ∧
    (runJobs doubleFireSched).trace.count Effect.serverCloseRequested = 2 ∧
    (runJobs doubleFireSched).trace.count Effect.clientDestroyRequested = 2 ∧
    (runJobs doubleFireSched).trace.count Effect.scratchCleaned = 2 ∧
    ¬((runJobs doubleFireSched).trace.count (Effect.enterShutdown 0) = 1) := by
  decide

/-- Claim C1, amended: the shutdown sequence has no idempotency guard —
each trigger that fires before the process has exited starts its own
shutdown run, so the teardown side effects up to and including scratch
deletion can occur once per fired trigger; only the process-exit step
itself occurs at most once in any execution, because the first run to
reach it terminates the process and every later event-loop turn is dead. -/
theorem shutdown_unguarded :
    (∀ js : List Job, (runJobs js).trace.countP isExitEff ≤ 1) ∧
    (schedValid doubleFireSched = true ∧
     (runJobs doubleFireSched).trace.count Effect.serverCloseRequested = 2 ∧
     (runJobs doubleFireSched).trace.countP isExitEff = 1) := by
  constructor
  · intro js
    have h := foldl_runJob_exit_inv js { exitedWith := none, trace := [] }
      (by simp)
    unfold runJobs
    rw [h]
    split <;> simp
  · decide

/-- Claim C2, counterexample: a foreground player exit with code 3
triggers `shutdown(0)` (line 164), so the process exits with status 0,
not 3, refuting the claim that the final exit status equals the player
exit code. -/
theorem player_exit_code_three_exits_zero :
    schedValid [Job.fire (Trigger.playerExit 3), Job.resumeAfterClose 0,
      Job.resumeAfterGrace 0, Job.resumeAfterCleanup 0] = true ∧
    (runJobs [Job.fire (Trigger.playerExit 3), Job.resumeAfterClose 0,
      Job.resumeAfterGrace 0, Job.resumeAfterCleanup 0]).exitedWith
      = some 0 ∧
    ¬((0 : Nat) = 3) := by decide

/-- Claim C2, amended: when the foreground player process exits, the core
shuts down with exit status 0 regardless of the player exit code, because
the exit handler always calls `shutdown(0)`. -/
theorem player_exit_always_exit_zero (c : Int) :
    triggerCode (Trigger.playerExit c) = 0 ∧
    (runJobs [Job.fire (Trigger.playerExit c), Job.resumeAfterClose 0,
      Job.resumeAfterGrace 0, Job.resumeAfterCleanup 0]).exitedWith
      = some 0 :=
  ⟨rfl, rfl⟩

/-- Claim C3, counterexample: the cleanup step removes each entry of the
scratch directory but never removes the directory itself, so after
shutdown a previously existing scratch directory is still present on disk
(empty), refuting full removal. -/
theorem scratch_dir_remains_after_cleanup :
    cleanupScratch (some ["movie.mkv"]) = (some [], false) ∧
    (some ([] : List String)) ≠ (none : Option (List String)) := by decide

/-- Claim C3, amended: after shutdown the scratch directory is emptied of
all its entries but the directory itself remains on disk; if the
directory never existed, its absence is tolerated and raises no error
(the ENOENT from readdir is swallowed without logging). -/
theorem cleanup_empties_tolerates_missing :
    (∀ es : List String, cleanupScratch (some es) = (some [], false)) ∧
    cleanupScratch none = (none, false) :=
  ⟨fun _ => rfl, rfl⟩

/-- Claim C4: for every GET request whose Range header parses to integer
bounds start and end with 0 ≤ start ≤ end < length (the end bound
defaulting to length − 1 when the part after the dash is absent, as
`parseRangeHeader` encodes), the response is 206 with Content-Range
`bytes start-end/length` and Content-Length end − start + 1. -/
theorem valid_range_206 (v : Video) (h : String) (s e : Int)
    (hne : h.data ≠ [])
    (hp : parseRangeHeader h v.length = (JsNum.num s, JsNum.num e))
    (hs0 : 0 ≤ s) (hse : s ≤ e) (hev : e < v.length) :
    handler v ⟨"GET", some h⟩ =
      { status := 206, acceptRanges := true, contentType := some "video/mp4",
        contentRange := some ("bytes " ++ toString s ++ "-" ++ toString e
          ++ "/" ++ toString v.length),
        contentLength := some (JsNum.num (e - s + 1)) } :=
  handler_parsed_range v h s e hne hp

/-- Claim C4, witness: the spec scenario — Range bytes 1000-1999 on a
5000000-byte file yields 206 with Content-Range bytes 1000-1999/5000000
and Content-Length 1000. -/
theorem valid_range_206_witness :
    handler ⟨"movie.mkv", 5000000⟩ ⟨"GET", some "bytes=1000-1999"⟩ =
      { status := 206, acceptRanges := true, contentType := some "video/mp4",
        contentRange := some "bytes 1000-1999/5000000",
        contentLength := some (JsNum.num 1000) } :=
  (valid_range_206 ⟨"movie.mkv", 5000000⟩ "bytes=1000-1999" 1000 1999
    (by decide) (by decide) (by decide) (by decide) (by decide)).trans
    (by decide)

/-- Claim C5, counterexample: on the syntactically malformed header
`bytes=abc` the server responds neither 416 nor 200 — it emits a 206
partial-content response whose Content-Range start bound is NaN and whose
Content-Length is NaN, refuting the claimed policy. -/
theorem malformed_range_nan_206 :
    handler ⟨"movie.mp4", 100⟩ ⟨"GET", some "bytes=abc"⟩ =
      { status := 206, acceptRanges := true, contentType := some "video/mp4",
        contentRange := some "bytes NaN-99/100",
        contentLength := some JsNum.nan } ∧
    ¬((206 : Nat) = 416) ∧ ¬((206 : Nat) = 200) := by decide

/-- Claim C5, amended: on a malformed Range header (one whose start part
does not parse to a number) the server still responds 206, with NaN as
the start bound and NaN Content-Length; it neither rejects with 416 nor
falls back to a full 200 response. -/
theorem malformed_range_start_nan (v : Video) (h : String)
    (hne : h.data ≠ [])
    (hp : (parseRangeHeader h v.length).1 = JsNum.nan) :
    (handler v ⟨"GET", some h⟩).status = 206 ∧
    (handler v ⟨"GET", some h⟩).contentLength = some JsNum.nan := by
  have hf := rangeFalsy_some_false h hne
  constructor <;>
    simp [handler, hf, hp, JsNum.sub_nan, JsNum.addOne]

/-- Claim C5, witness for the amended statement at the concrete malformed
header `bytes=abc` against a 100-byte file. -/
theorem malformed_range_start_nan_witness :
    (handler ⟨"clip.avi", 100⟩ ⟨"GET", some "bytes=abc"⟩).status = 206 ∧
    (handler ⟨"clip.avi", 100⟩ ⟨"GET", some "bytes=abc"⟩).contentLength
      = some JsNum.nan :=
  malformed_range_start_nan ⟨"clip.avi", 100⟩ "bytes=abc"
    (by decide) (by decide)

/-- Claim C6, counterexample: the request `bytes=500-1000` against a
100-byte file is answered 206 with Content-Range bytes 500-1000/100 and
Content-Length 501, although end = 1000 is not below length = 100 — the
Byte Range invariant 0 ≤ start ≤ end < length is broken by a served 206. -/
theorem out_of_bounds_range_206 :
    handler ⟨"movie.mp4", 100⟩ ⟨"GET", some "bytes=500-1000"⟩ =
      { status := 206, acceptRanges := true, contentType := some "video/mp4",
        contentRange := some "bytes 500-1000/100",
        contentLength := some (JsNum.num 501) } ∧
    ¬((1000 : Int) < 100) := by decide

/-- Claim C6, amended: the server never validates the parsed bounds — any
Range header that parses to integers start and end is answered 206
echoing exactly those bounds and Content-Length end − start + 1, even
when end ≥ length or start > end. -/
theorem range_206_echoes_unvalidated (v : Video) (h : String) (s e : Int)
    (hne : h.data ≠ [])
    (hp : parseRangeHeader h v.length = (JsNum.num s, JsNum.num e)) :
    handler v ⟨"GET", some h⟩ =
      { status := 206, acceptRanges := true, contentType := some "video/mp4",
        contentRange := some ("bytes " ++ toString s ++ "-" ++ toString e
          ++ "/" ++ toString v.length),
        contentLength := some (JsNum.num (e - s + 1)) } :=
  handler_parsed_range v h s e hne hp

/-- Claim C6, witness for the amended statement: an out-of-bounds and a
reversed range are both echoed back in a 206. -/
theorem range_206_echoes_unvalidated_witness :
    handler ⟨"other.mkv", 50⟩ ⟨"GET", some "bytes=40-10"⟩ =
      { status := 206, acceptRanges := true, contentType := some "video/mp4",
        contentRange := some "bytes 40-10/50",
        contentLength := some (JsNum.num (-29)) } :=
  (range_206_echoes_unvalidated ⟨"other.mkv", 50⟩ "bytes=40-10" 40 10
    (by decide) (by decide)).trans (by decide)

/-- Claim C7: a GET request with no Range header is answered 200 with
Content-Length equal to the full file length and Accept-Ranges bytes
set. -/
theorem no_range_header_200 (v : Video) (req : Request)
    (hm : req.method = "GET") (hr : req.range = none) :
    handler v req =
      { status := 200, acceptRanges := true, contentType := some "video/mp4",
        contentRange := none, contentLength := some (JsNum.num v.length) } := by
  rcases req with ⟨m, r⟩
  simp only at hm hr
  subst hm; subst hr
  simp [handler, rangeFalsy]

/-- Claim C7, witness at a concrete 123-byte file. -/
theorem no_range_header_200_witness :
    handler ⟨"movie.avi", 123⟩ ⟨"GET", none⟩ =
      { status := 200, acceptRanges := true, contentType := some "video/mp4",
        contentRange := none, contentLength := some (JsNum.num 123) } :=
  no_range_header_200 ⟨"movie.avi", 123⟩ ⟨"GET", none⟩ rfl rfl

/-- Claim C8, counterexample: a genuine I/O failure whose message does
not contain "prematurely" is never logged at all — the logger emits
nothing for it even on its first occurrence, refuting the claim that
non-cancellation failures are observable at least once. -/
theorem io_error_never_observable :
    containsSub ("prematurely".data) ("read ECONNRESET".data) = false ∧
    runStreamErrors ["read ECONNRESET"] = [] ∧
    runStreamErrors ["read ECONNRESET", "read ECONNRESET"] = [] := by decide

/-- Claim C8, amended: across any sequence of stream errors at most one
log line is ever emitted in total (a single global flag, not one per
category); errors whose message contains "prematurely" are logged once
then suppressed, and every other stream error is silently ignored — no
stream error ever reaches process-level failure, but non-cancellation
failures are not observable. -/
theorem stream_error_logging_policy :
    (∀ msgs : List String, (runStreamErrors msgs).length ≤ 1) ∧
    (∀ msgs : List String,
      (∀ m ∈ msgs, containsSub ("prematurely".data) m.data = false) →
      runStreamErrors msgs = []) ∧
    runStreamErrors ["stream closed prematurely", "stream closed prematurely"]
      = ["Stream hiccup (normal for seeking): stream closed prematurely"] := by
  refine ⟨?_, ?_, by decide⟩
  · intro msgs
    simpa [runStreamErrors] using foldl_streamStep_length msgs false []
  · intro msgs hm
    simp [runStreamErrors, foldl_streamStep_no_match msgs hm]

/-- Claim C8, witness: a concrete non-cancellation failure message
produces no log line. -/
theorem stream_error_logging_policy_witness :
    runStreamErrors ["piece fetch timeout"] = [] :=
  stream_error_logging_policy.2.1 ["piece fetch timeout"] (by decide)

/-- Claim C9: when no member of the joined swarm matches the media
extension allow-list, the add-callback reaches the fatal branch — the run
terminates with exit status 1 (non-zero) and no HTTP server is ever
created, so no request handling happens on an unselected file. -/
theorem no_video_member_fatal (files : List String)
    (h : ∀ f ∈ files, hasVideoExt f = false) :
    addTorrentCallback files = JoinOutcome.fatalExit 1 ∧
    ¬((1 : Nat) = 0) ∧
    ∀ v, addTorrentCallback files ≠ JoinOutcome.serverStarted v := by
  have hf : files.find? hasVideoExt = none := by
    rw [List.find?_eq_none]
    intro x hx
    simp [h x hx]
  refine ⟨?_, by decide, ?_⟩ <;> simp [addTorrentCallback, hf]

/-- Claim C9, witness: a swarm containing only non-media members. -/
theorem no_video_member_fatal_witness :
    addTorrentCallback ["readme.txt", "notes.pdf"] = JoinOutcome.fatalExit 1 ∧
    ¬((1 : Nat) = 0) ∧
    ∀ v, addTorrentCallback ["readme.txt", "notes.pdf"]
      ≠ JoinOutcome.serverStarted v :=
  no_video_member_fatal ["readme.txt", "notes.pdf"] (by decide)

/-- Claim C10: every GET response — full 200 or partial 206, for any
selected video whatever its name or allow-listed extension — carries the
fixed Content-Type video/mp4, since the handler sets it before branching
and never consults the file name. -/
theorem get_response_content_type_mp4 (v : Video) (req : Request)
    (hm : req.method = "GET") :
    (handler v req).contentType = some "video/mp4" := by
  rcases req with ⟨m, r⟩
  simp only at hm
  subst hm
  by_cases hr : rangeFalsy r <;> simp [handler, hr]

/-- Claim C10, witness: a webm-named file is still served as video/mp4. -/
theorem get_response_content_type_mp4_witness :
    (handler ⟨"movie.webm", 7⟩ ⟨"GET", some "bytes=0-3"⟩).contentType
      = some "video/mp4" :=
  get_response_content_type_mp4 ⟨"movie.webm", 7⟩ ⟨"GET", some "bytes=0-3"⟩ rfl

end WBTR
